import Mathlib

/-!
Verification of the music-library single-table data layer
(`backend/database.py`) and its HTTP route layer (`backend/songs.py`,
`backend/playlists.py`).

The DynamoDB table is modelled as an association list from the composite
primary key `(PK, SK)` to the stored item; an item is an association list
from attribute names to attribute values.  `put_item` unconditionally
replaces the record at the item's key, `delete_item` removes the record at
a key, `update_item` with a `SET` expression merges the given attributes
into the record at the key, creating the record (key attributes plus the
set attributes) when it is absent — DynamoDB's upsert semantics.  A
`query` with a key condition `PK = pk AND begins_with(SK, pre)` returns
the matching items in ascending sort-key order.

Python `None` stored through boto3 becomes a DynamoDB `NULL` attribute
value, modelled by `Value.vNull`; `dict.get(k)` on a missing key yields
`None`.  Python `{**a, **b}` is modelled by `mergeDicts a b`, whose
lookups prefer `b`.  Timestamps (`datetime.utcnow().isoformat()`) are
threaded in as an explicit `now : String` argument.
-/

namespace MusicLib

/-- A DynamoDB attribute value (the kinds this code base stores). -/
inductive Value where
  | vStr (s : String)
  | vInt (n : Int)
  | vBool (b : Bool)
  | vNull
deriving DecidableEq

/-- A stored item / Python dict: attribute name to value. -/
abbrev Item := List (String × Value)

/-- The composite primary key (partition key, sort key). -/
abbrev StoreKey := String × String

/-- The single DynamoDB table: records keyed by (PK, SK). -/
abbrev Store := List (StoreKey × Item)

/-- Dict lookup (`d[k]` / `d.get(k)` when present): first binding wins. -/
def dget : Item → String → Option Value
  | [], _ => none
  | kv :: d, k => if kv.1 = k then some kv.2 else dget d k

/-- String-valued lookup; `""` for absent or non-string values. -/
def dgetStr (d : Item) (k : String) : String :=
  match dget d k with
  | some (.vStr s) => s
  | _ => ""

/-- Integer-valued lookup; `0` for absent or non-integer values. -/
def dgetInt (d : Item) (k : String) : Int :=
  match dget d k with
  | some (.vInt n) => n
  | _ => 0

/-- Python `d.get(k)`: `None` (a stored NULL) when the key is absent. -/
def pyGet (d : Item) (k : String) : Value :=
  (dget d k).getD .vNull

/-- Python `d.get(k, dflt)`. -/
def pyGetD (d : Item) (k : String) (dflt : Value) : Value :=
  (dget d k).getD dflt

/-- Python `str()` of an attribute value, as used inside f-strings. -/
def strValue : Value → String
  | .vStr s => s
  | .vInt n => toString n
  | .vBool true => "True"
  | .vBool false => "False"
  | .vNull => "None"

/-- Python `{**a, **b}`: lookups prefer `b`, falling back to `a`. -/
def mergeDicts (a b : Item) : Item := b ++ a

/-- One optional dict entry: Python's "add key only when value is not None"
    pattern (`{k: v for k, v in d.items() if v is not None}`). -/
def optField (k : String) (v : Option Value) : Item :=
  match v with
  | some v => [(k, v)]
  | none => []

/-- `get_item`: the record stored at a key, if any. -/
def getEntry : Store → StoreKey → Option Item
  | [], _ => none
  | e :: s, k => if e.1 = k then some e.2 else getEntry s k

/-- Store a record at a key, replacing any record already there. -/
def putAt (s : Store) (k : StoreKey) (it : Item) : Store :=
  s.filter (fun e => decide (e.1 ≠ k)) ++ [(k, it)]

/-- `put_item`: unconditional write at the item's own (PK, SK). -/
def putItem (s : Store) (it : Item) : Store :=
  putAt s (dgetStr it "PK", dgetStr it "SK") it

/-- `delete_item` at a key. -/
def deleteItem (s : Store) (pk sk : String) : Store :=
  s.filter (fun e => decide (e.1 ≠ (pk, sk)))

/-- `update_item` with a `SET` expression: merge the attributes into the
    record at the key; when absent, create a record holding the key
    attributes and the set attributes (DynamoDB upsert semantics). -/
def updateItemAt (s : Store) (k : StoreKey) (sets : Item) : Store :=
  match getEntry s k with
  | some it => putAt s k (mergeDicts it sets)
  | none => putAt s k ([("PK", .vStr k.1), ("SK", .vStr k.2)] ++ sets)

/-- Insert into a run kept ordered by `le` (stable: goes before equals). -/
def insertSorted (le : α → α → Bool) (a : α) : List α → List α
  | [] => [a]
  | b :: l => if le a b then a :: b :: l else b :: insertSorted le a l

/-- Stable sort by `le` (models Python's stable `sorted`). -/
def sortWith (le : α → α → Bool) : List α → List α
  | [] => []
  | a :: l => insertSorted le a (sortWith le l)

/-- Strict lexicographic order on character lists (how DynamoDB compares
    sort keys; for the ASCII keys of this table, byte order is
    codepoint order). -/
def lexLtChars : List Char → List Char → Bool
  | [], [] => false
  | [], _ :: _ => true
  | _ :: _, [] => false
  | a :: as, b :: bs => if a < b then true else if b < a then false else lexLtChars as bs

/-- Reflexive lexicographic order on character lists. -/
def lexLeChars : List Char → List Char → Bool
  | [], _ => true
  | _ :: _, [] => false
  | a :: as, b :: bs => if a < b then true else if b < a then false else lexLeChars as bs

/-- DynamoDB `begins_with` on sort keys. -/
def beginsWith : List Char → List Char → Bool
  | [], _ => true
  | _ :: _, [] => false
  | a :: pre, b :: s => a == b && beginsWith pre s

/-- `query` with `PK = pk AND begins_with(SK, pre)`: matching items in
    ascending sort-key order. -/
def queryBeginsWith (s : Store) (pk pre : String) : List Item :=
  (sortWith (fun a b => lexLeChars a.1.2.data b.1.2.data)
    (s.filter (fun e => decide (e.1.1 = pk) && beginsWith pre.data e.1.2.data))).map (·.2)

/-! ## database.py -/

/-- `DynamoDBService.create_user`. -/
def create_user (s : Store) (user_id email username now : String) : Store × Item :=
  let item : Item :=
    [("PK", .vStr ("USER#" ++ user_id)), ("SK", .vStr "METADATA"),
     ("user_id", .vStr user_id), ("email", .vStr email),
     ("username", .vStr username), ("created_at", .vStr now),
     ("entity_type", .vStr "user")]
  (putItem s item, item)

/-- `DynamoDBService.get_user`. -/
def get_user (s : Store) (user_id : String) : Option Item :=
  getEntry s ("USER#" ++ user_id, "METADATA")

/-- `DynamoDBService.create_song`.  (`song_data["artist"]` would raise a
    `KeyError` when absent; all callers supply it, and the GSI attributes
    are never read back by the operations verified here, so absent values
    are rendered like Python `str(None)`.) -/
def create_song (s : Store) (song_id : String) (song_data : Item) : Store × Item :=
  let item : Item := mergeDicts
    [("PK", .vStr ("SONG#" ++ song_id)), ("SK", .vStr "METADATA"),
     ("song_id", .vStr song_id), ("entity_type", .vStr "song"),
     ("GSI1PK", .vStr ("ARTIST#" ++ strValue (pyGet song_data "artist"))),
     ("GSI1SK", .vStr ("TITLE#" ++ strValue (pyGet song_data "title"))),
     ("GSI2PK", .vStr ("GENRE#" ++ strValue (pyGetD song_data "genre" (.vStr "Unknown")))),
     ("GSI2SK", .vStr ("SONG#" ++ song_id))]
    song_data
  (putItem s item, item)

/-- `DynamoDBService.get_song`. -/
def get_song (s : Store) (song_id : String) : Option Item :=
  getEntry s ("SONG#" ++ song_id, "METADATA")

/-- `DynamoDBService.add_song_to_user_collection`. -/
def add_song_to_user_collection (s : Store) (user_id song_id : String)
    (song_data : Item) (now : String) : Store × Item :=
  let s1 := match get_song s song_id with
    | some _ => s
    | none => (create_song s song_id song_data).1
  let item : Item :=
    [("PK", .vStr ("USER#" ++ user_id)), ("SK", .vStr ("SONG#" ++ song_id)),
     ("user_id", .vStr user_id), ("song_id", .vStr song_id),
     ("added_at", .vStr now), ("rating", pyGet song_data "rating"),
     ("notes", pyGet song_data "notes"), ("play_count", .vInt 0),
     ("entity_type", .vStr "user_song")]
  (putItem s1 item, item)

/-- `DynamoDBService.get_user_songs`. -/
def get_user_songs (s : Store) (user_id : String) : List Item :=
  let rows := queryBeginsWith s ("USER#" ++ user_id) "SONG#"
  rows.filterMap (fun user_song =>
    match get_song s (dgetStr user_song "song_id") with
    | some song_details => some (mergeDicts song_details user_song)
    | none => none)

/-- The non-`None` updates actually written by the `SET` expression. -/
def applyUpdates (updates : Item) : Item :=
  updates.filter (fun kv => decide (kv.2 ≠ .vNull))

/-- `DynamoDBService.update_user_song`.  An all-`None`/empty update builds
    the invalid expression `"SET"`, which DynamoDB rejects; otherwise the
    update is applied (upserting when the key is absent) and the record is
    read back. -/
def update_user_song (s : Store) (user_id song_id : String)
    (updates : Item) : Except String (Store × Item) :=
  let key : StoreKey := ("USER#" ++ user_id, "SONG#" ++ song_id)
  let applied := applyUpdates updates
  if applied.isEmpty then
    .error "ValidationException: invalid UpdateExpression"
  else
    let s1 := updateItemAt s key applied
    match getEntry s1 key with
    | some it => .ok (s1, it)
    | none => .error "KeyError: Item"

/-- `DynamoDBService.remove_song_from_user_collection`. -/
def remove_song_from_user_collection (s : Store) (user_id song_id : String) : Store :=
  deleteItem s ("USER#" ++ user_id) ("SONG#" ++ song_id)

/-- `DynamoDBService.get_user_playlists`. -/
def get_user_playlists (s : Store) (user_id : String) : List Item :=
  queryBeginsWith s ("USER#" ++ user_id) "PLAYLIST#"

/-- `DynamoDBService.get_playlist`. -/
def get_playlist (s : Store) (user_id playlist_id : String) : Option Item :=
  getEntry s ("USER#" ++ user_id, "PLAYLIST#" ++ playlist_id)

/-- `DynamoDBService.update_playlist` (same shape as `update_user_song`). -/
def update_playlist (s : Store) (user_id playlist_id : String)
    (updates : Item) : Except String (Store × Item) :=
  let key : StoreKey := ("USER#" ++ user_id, "PLAYLIST#" ++ playlist_id)
  let applied := applyUpdates updates
  if applied.isEmpty then
    .error "ValidationException: invalid UpdateExpression"
  else
    let s1 := updateItemAt s key applied
    match getEntry s1 key with
    | some it => .ok (s1, it)
    | none => .error "KeyError: Item"

/-- Decimal digit characters of `n`, most significant first (fuel-based so
    the kernel can evaluate it; `natToDigits_eq` is the recursion law). -/
def natDigitsGo (fuel n : Nat) : List Char :=
  match fuel with
  | 0 => []
  | fuel + 1 =>
    if n < 10 then [Nat.digitChar n]
    else natDigitsGo fuel (n / 10) ++ [Nat.digitChar (n % 10)]

/-- Decimal rendering of a natural number, as a list of digit characters. -/
def natToDigits (n : Nat) : List Char := natDigitsGo (n + 1) n

/-- Python `f"{p:04d}"`. -/
def pad4 (p : Int) : String :=
  if p < 0 then
    String.mk ('-' :: (List.replicate (3 - (natToDigits (-p).toNat).length) '0'
      ++ natToDigits (-p).toNat))
  else
    String.mk (List.replicate (4 - (natToDigits p.toNat).length) '0'
      ++ natToDigits p.toNat)

/-- The Playlist-Song sort key `f'SONG#{song_id}#{position:04d}'`. -/
def playlistSongSK (song_id : String) (position : Int) : String :=
  "SONG#" ++ song_id ++ "#" ++ pad4 position

/-- `DynamoDBService.add_song_to_playlist`. -/
def add_song_to_playlist (s : Store) (playlist_id song_id : String)
    (position : Int) (now : String) : Store × Item :=
  let item : Item :=
    [("PK", .vStr ("PLAYLIST#" ++ playlist_id)),
     ("SK", .vStr (playlistSongSK song_id position)),
     ("playlist_id", .vStr playlist_id), ("song_id", .vStr song_id),
     ("position", .vInt position), ("added_at", .vStr now),
     ("entity_type", .vStr "playlist_song")]
  (putItem s item, item)

/-- The comparison behind `sorted(songs, key=lambda x: x['position'])`:
    numeric comparison of the decoded `position` attribute. -/
def posLe (a b : Item) : Bool :=
  decide (dgetInt a "position" ≤ dgetInt b "position")

/-- `DynamoDBService.get_playlist_songs`: query the memberships, merge each
    with its canonical song (dropping those whose song is absent), then
    `sorted(songs, key=lambda x: x['position'])`. -/
def get_playlist_songs (s : Store) (playlist_id : String) : List Item :=
  let rows := queryBeginsWith s ("PLAYLIST#" ++ playlist_id) "SONG#"
  let songs := rows.filterMap (fun playlist_song =>
    match get_song s (dgetStr playlist_song "song_id") with
    | some song_details => some (mergeDicts song_details playlist_song)
    | none => none)
  sortWith posLe songs

/-- `DynamoDBService.delete_playlist`: delete each queried membership row
    by its sort key, then delete the playlist row. -/
def delete_playlist (s : Store) (user_id playlist_id : String) : Store :=
  let playlist_songs := get_playlist_songs s playlist_id
  let s1 := playlist_songs.foldl
    (fun st song => deleteItem st ("PLAYLIST#" ++ playlist_id) (dgetStr song "SK")) s
  deleteItem s1 ("USER#" ++ user_id) ("PLAYLIST#" ++ playlist_id)

/-- DynamoDB stores the key attributes inside the item: every record's
    "PK"/"SK" attributes equal its table key.  Every store built by the
    write operations of this file satisfies this. -/
def WellFormedStore (s : Store) : Prop :=
  ∀ e ∈ s, dget e.2 "PK" = some (.vStr e.1.1) ∧ dget e.2 "SK" = some (.vStr e.1.2)

instance (s : Store) : Decidable (WellFormedStore s) :=
  inferInstanceAs (Decidable (∀ e ∈ s,
    dget e.2 "PK" = some (.vStr e.1.1) ∧ dget e.2 "SK" = some (.vStr e.1.2)))

/-- The store of the C6 example: three songs created, then added to
    playlist "p" at positions 3, 1, 2, in that call order. -/
def c6demoStore : Store :=
  (add_song_to_playlist
    (add_song_to_playlist
      (add_song_to_playlist
        (create_song
          (create_song
            (create_song [] "s1" [("artist", .vStr "A1"), ("title", .vStr "T1")]).1
            "s2" [("artist", .vStr "A2"), ("title", .vStr "T2")]).1
          "s3" [("artist", .vStr "A3"), ("title", .vStr "T3")]).1
        "p" "s1" 3 "t1").1
      "p" "s2" 1 "t2").1
    "p" "s3" 2 "t3").1

/-- The concrete store backing the C8 witness: one song added to the
    library of user "u" via `add_song_to_user_collection`. -/
def c8demoStore : Store :=
  (add_song_to_user_collection [] "u" "s1"
    [("artist", .vStr "A"), ("title", .vStr "T")] "t0").1

/-! ## The HTTP route layer

Each FastAPI handler wraps its whole body in
`try: ... except Exception as e: raise HTTPException(500, str(e))`.
`fastapi.HTTPException` is itself an `Exception`, so an `HTTPException`
raised inside the body is caught by the catch-all and replaced by the
500 one; `str()` of an `HTTPException` is `"<status>: <detail>"`.  A
handler body is modelled as `Except PyExn α`: `PyExn.http` for a raised
`HTTPException`, `PyExn.raw` for any other exception's message. -/

/-- `fastapi.HTTPException(status_code, detail)`. -/
structure HTTPException where
  status : Int
  detail : String
deriving DecidableEq

/-- An exception a handler body can raise. -/
inductive PyExn where
  | http (e : HTTPException)
  | raw (msg : String)

/-- Python `str(e)` for the exceptions modelled here. -/
def pyStrOfExn : PyExn → String
  | .http e => toString e.status ++ ": " ++ e.detail
  | .raw msg => msg

/-- The `try ... except Exception as e: raise HTTPException(500, str(e))`
    wrapper shared by every handler in `songs.py` and `playlists.py`. -/
def handlerWrap (body : Except PyExn α) : Except HTTPException α :=
  match body with
  | .ok a => .ok a
  | .error e => .error ⟨500, pyStrOfExn e⟩

/-- The stubbed identity resolution (`get_user_id_from_context`). -/
def mock_user_id : String := "mock-user-id"

/-! ### songs.py -/

/-- `models.CreateSongRequest` (pydantic). -/
structure CreateSongRequest where
  title : String
  artist : String
  album : Option String
  year : Option Int
  genre : Option String
  duration : Option Int
  cover_art_url : Option String
  rating : Option Int
  notes : Option String

/-- The pydantic constraint `rating: Optional[int] = Field(None, ge=1, le=5)`:
    a request that reaches the handler satisfies it. -/
def ratingOk : Option Int → Prop
  | none => True
  | some n => 1 ≤ n ∧ n ≤ 5

instance (o : Option Int) : Decidable (ratingOk o) :=
  match o with
  | none => .isTrue trivial
  | some n => inferInstanceAs (Decidable (1 ≤ n ∧ n ≤ 5))

namespace SongsAPI

/-- `POST /songs` (`songs.create_song`): build `song_data` from the request,
    strip the `None` values, and call `add_song_to_user_collection`.  The
    generated `uuid4` and the timestamp are threaded in explicitly. -/
def create_song (s : Store) (r : CreateSongRequest) (song_id now : String) :
    Except HTTPException (Store × Item) :=
  handlerWrap (
    let song_data : Item :=
      optField "title" (some (.vStr r.title)) ++
      optField "artist" (some (.vStr r.artist)) ++
      optField "album" (r.album.map .vStr) ++
      optField "year" (r.year.map .vInt) ++
      optField "genre" (r.genre.map .vStr) ++
      optField "duration" (r.duration.map .vInt) ++
      optField "cover_art_url" (r.cover_art_url.map .vStr) ++
      optField "rating" (r.rating.map .vInt) ++
      optField "notes" (r.notes.map .vStr)
    .ok (add_song_to_user_collection s mock_user_id song_id song_data now))

end SongsAPI

/-! ### playlists.py -/

/-- `models.UpdatePlaylistRequest` (pydantic, all fields optional). -/
structure UpdatePlaylistRequest where
  name : Option String
  description : Option String
  is_public : Option Bool

/-- `models.AddSongToPlaylistRequest`. -/
structure AddSongToPlaylistRequest where
  song_id : String
  position : Option Int

namespace PlaylistsAPI

/-- `GET /playlists/{playlist_id}` (`playlists.get_playlist`).  The response
    attaches the playlist row and its songs; a missing playlist raises
    `HTTPException(404, "Playlist not found")` inside the try block. -/
def get_playlist (s : Store) (playlist_id : String) :
    Except HTTPException (Item × List Item) :=
  handlerWrap (
    match MusicLib.get_playlist s mock_user_id playlist_id with
    | none => .error (.http ⟨404, "Playlist not found"⟩)
    | some playlist =>
      let songs := get_playlist_songs s playlist_id
      .ok (playlist, songs))

/-- `PUT /playlists/{playlist_id}` (`playlists.update_playlist`): collect the
    non-`None` request fields; an empty update raises
    `HTTPException(400, "No updates provided")` inside the try block. -/
def update_playlist (s : Store) (playlist_id : String)
    (r : UpdatePlaylistRequest) : Except HTTPException (Store × Item) :=
  handlerWrap (
    let updates : Item :=
      optField "name" (r.name.map .vStr) ++
      optField "description" (r.description.map .vStr) ++
      optField "is_public" (r.is_public.map .vBool)
    if updates.isEmpty then .error (.http ⟨400, "No updates provided"⟩)
    else
      match MusicLib.update_playlist s mock_user_id playlist_id updates with
      | .ok res => .ok res
      | .error msg => .error (.raw msg))

/-- `POST /playlists/{playlist_id}/songs` (`playlists.add_song_to_playlist`):
    404 inside the try block when the playlist is absent, otherwise the
    position defaults to `len(current_songs) + 1`. -/
def add_song_to_playlist (s : Store) (playlist_id : String)
    (r : AddSongToPlaylistRequest) (now : String) :
    Except HTTPException (Store × Item) :=
  handlerWrap (
    match MusicLib.get_playlist s mock_user_id playlist_id with
    | none => .error (.http ⟨404, "Playlist not found"⟩)
    | some _ =>
      let current_songs := get_playlist_songs s playlist_id
      let position : Int := match r.position with
        | some p => p
        | none => (current_songs.length : Int) + 1
      .ok (MusicLib.add_song_to_playlist s playlist_id r.song_id position now))

end PlaylistsAPI

/-! ## Basic lemmas about the store model -/

theorem dget_append (a b : Item) (k : String) :
    dget (a ++ b) k = (dget a k).or (dget b k) := by
  induction a with
  | nil => simp [dget]
  | cons kv a ih =>
    by_cases h : kv.1 = k
    · simp [dget, h]
    · simp [dget, h, ih]

theorem dget_mergeDicts (a b : Item) (k : String) :
    dget (mergeDicts a b) k = (dget b k).or (dget a k) := by
  simp [mergeDicts, dget_append]

theorem dget_optField_self (k : String) (v : Option Value) :
    dget (optField k v) k = v := by
  cases v <;> simp [optField, dget]

theorem dget_optField_ne {k k' : String} (h : k ≠ k') (v : Option Value) :
    dget (optField k v) k' = none := by
  cases v <;> simp [optField, dget, h]

theorem getEntry_filter_keep {p : StoreKey × Item → Bool} (s : Store) (k : StoreKey)
    (h : ∀ e ∈ s, e.1 = k → p e = true) :
    getEntry (s.filter p) k = getEntry s k := by
  induction s with
  | nil => simp
  | cons e s ih =>
    by_cases he : e.1 = k
    · have := h e (by simp) he
      simp [List.filter, this, getEntry, he]
    · by_cases hp : p e
      · simp only [List.filter, hp, getEntry, he, if_false]
        exact ih fun e' he' hk => h e' (by simp [he']) hk
      · simp only [List.filter, hp, Bool.false_eq_true, if_false, getEntry, he]
        exact ih fun e' he' hk => h e' (by simp [he']) hk

theorem getEntry_append (a b : Store) (k : StoreKey) :
    getEntry (a ++ b) k = (getEntry a k).or (getEntry b k) := by
  induction a with
  | nil => simp [getEntry]
  | cons e a ih =>
    by_cases h : e.1 = k
    · simp [getEntry, h]
    · simp [getEntry, h, ih]

theorem getEntry_filter_self_none (s : Store) (k : StoreKey) :
    getEntry (s.filter (fun e => decide (e.1 ≠ k))) k = none := by
  induction s with
  | nil => simp [getEntry]
  | cons e s ih =>
    by_cases h : e.1 = k
    · simpa [List.filter, h] using ih
    · simpa [List.filter, h, getEntry] using ih

theorem getEntry_putAt_self (s : Store) (k : StoreKey) (it : Item) :
    getEntry (putAt s k it) k = some it := by
  rw [putAt, getEntry_append, getEntry_filter_self_none]
  simp [getEntry]

theorem getEntry_putAt_ne (s : Store) {k k' : StoreKey} (h : k' ≠ k) (it : Item) :
    getEntry (putAt s k it) k' = getEntry s k' := by
  rw [putAt, getEntry_append]
  have h1 : getEntry (s.filter (fun e => decide (e.1 ≠ k))) k' = getEntry s k' := by
    refine getEntry_filter_keep s k' fun e _ hk => ?_
    have he : e.1 ≠ k := by rw [hk]; exact h
    simpa using he
  have h2 : getEntry [(k, it)] k' = none := by
    have hkk : k ≠ k' := fun hkk => h hkk.symm
    simp [getEntry, hkk]
  rw [h1, h2, Option.or_none]

theorem getEntry_deleteItem_ne (s : Store) {pk sk : String} {k : StoreKey}
    (h : k ≠ (pk, sk)) :
    getEntry (deleteItem s pk sk) k = getEntry s k := by
  refine getEntry_filter_keep s k fun e _ hk => ?_
  simp [hk, h]

theorem getEntry_deleteItem_self (s : Store) (pk sk : String) :
    getEntry (deleteItem s pk sk) (pk, sk) = none := by
  induction s with
  | nil => simp [deleteItem, getEntry]
  | cons e s ih =>
    by_cases he : e.1 = (pk, sk)
    · simpa [deleteItem, List.filter, he] using ih
    · simpa [deleteItem, List.filter, he, getEntry] using ih

theorem mem_deleteItem {s : Store} {e : StoreKey × Item} {pk sk : String} :
    e ∈ deleteItem s pk sk ↔ e ∈ s ∧ e.1 ≠ (pk, sk) := by
  simp [deleteItem, List.mem_filter]

theorem mem_insertSorted {le : α → α → Bool} {x a : α} {l : List α} :
    x ∈ insertSorted le a l ↔ x = a ∨ x ∈ l := by
  induction l with
  | nil => simp [insertSorted]
  | cons b l ih =>
    by_cases h : le a b
    · simp [insertSorted, h]
    · simp [insertSorted, h, ih]
      tauto

theorem mem_sortWith {le : α → α → Bool} {x : α} {l : List α} :
    x ∈ sortWith le l ↔ x ∈ l := by
  induction l with
  | nil => simp [sortWith]
  | cons a l ih => simp [sortWith, mem_insertSorted, ih]

theorem pairwise_insertSorted {le : α → α → Bool}
    (htot : ∀ a b, le a b = true ∨ le b a = true)
    (htrans : ∀ a b c, le a b = true → le b c = true → le a c = true)
    {a : α} {l : List α} (h : l.Pairwise (fun x y => le x y = true)) :
    (insertSorted le a l).Pairwise (fun x y => le x y = true) := by
  induction l with
  | nil => simp [insertSorted]
  | cons b l ih =>
    rcases List.pairwise_cons.mp h with ⟨hb, hl⟩
    by_cases hab : le a b
    · simp only [insertSorted, hab, if_true]
      refine List.pairwise_cons.mpr ⟨?_, h⟩
      intro x hx
      rcases List.mem_cons.mp hx with rfl | hx
      · exact hab
      · exact htrans a b x hab (hb x hx)
    · have hba : le b a = true := (htot a b).resolve_left (by simpa using hab)
      simp only [insertSorted, hab, if_false]
      refine List.pairwise_cons.mpr ⟨?_, ih hl⟩
      intro x hx
      rcases mem_insertSorted.mp hx with rfl | hx
      · exact hba
      · exact hb x hx

theorem pairwise_sortWith {le : α → α → Bool}
    (htot : ∀ a b, le a b = true ∨ le b a = true)
    (htrans : ∀ a b c, le a b = true → le b c = true → le a c = true)
    (l : List α) :
    (sortWith le l).Pairwise (fun x y => le x y = true) := by
  induction l with
  | nil => simp [sortWith]
  | cons a l ih => exact pairwise_insertSorted htot htrans ih

/-- All keys deleted by a fold of `deleteItem`s differ from `k`, so the
    record at `k` is untouched. -/
theorem getEntry_foldl_deleteItem_ne {β : Type} (D : List β) (pk : String)
    (f : β → String) (k : StoreKey) (h : ∀ d ∈ D, k ≠ (pk, f d)) (s : Store) :
    getEntry (D.foldl (fun st d => deleteItem st pk (f d)) s) k = getEntry s k := by
  induction D generalizing s with
  | nil => simp
  | cons d D ih =>
    simp only [List.foldl_cons]
    rw [ih (fun d' hd' => h d' (by simp [hd'])),
      getEntry_deleteItem_ne s (h d (by simp))]

/-- Membership in the store after a fold of `deleteItem`s. -/
theorem mem_foldl_deleteItem {β : Type} {D : List β} {pk : String}
    {f : β → String} {e : StoreKey × Item} {s : Store} :
    e ∈ D.foldl (fun st d => deleteItem st pk (f d)) s ↔
      e ∈ s ∧ ∀ d ∈ D, e.1 ≠ (pk, f d) := by
  induction D generalizing s with
  | nil => simp
  | cons d D ih =>
    simp only [List.foldl_cons, ih, mem_deleteItem]
    constructor
    · rintro ⟨⟨hs, hne⟩, hall⟩
      refine ⟨hs, fun d' hd' => ?_⟩
      rcases List.mem_cons.mp hd' with rfl | hd'
      · exact hne
      · exact hall d' hd'
    · rintro ⟨hs, hall⟩
      exact ⟨⟨hs, hall d (by simp)⟩, fun d' hd' => hall d' (by simp [hd'])⟩

/-- Two strings with different first characters differ. -/
theorem ne_of_head_ne {a b : String} (h : a.data.head? ≠ b.data.head?) : a ≠ b :=
  fun e => h (by rw [e])

/-! ## Decimal rendering and lexicographic order of the position codec -/

theorem natDigitsGo_congr (f1 f2 n : Nat) (h1 : n < f1) (h2 : n < f2) :
    natDigitsGo f1 n = natDigitsGo f2 n := by
  induction f1 generalizing f2 n with
  | zero => omega
  | succ f1 ih =>
    cases f2 with
    | zero => omega
    | succ f2 =>
      simp only [natDigitsGo]
      by_cases h : n < 10
      · simp [h]
      · rw [if_neg h, if_neg h, ih f2 (n / 10) (by omega) (by omega)]

/-- The recursion law of `natToDigits`. -/
theorem natToDigits_eq (n : Nat) :
    natToDigits n = if n < 10 then [Nat.digitChar n]
      else natToDigits (n / 10) ++ [Nat.digitChar (n % 10)] := by
  have base : natToDigits n = if n < 10 then [Nat.digitChar n]
      else natDigitsGo n (n / 10) ++ [Nat.digitChar (n % 10)] := rfl
  rw [base]
  by_cases h : n < 10
  · rw [if_pos h, if_pos h]
  · rw [if_neg h, if_neg h, natDigitsGo_congr n (n / 10 + 1) (n / 10) (by omega) (by omega)]
    rfl

theorem natToDigits_lt10 {n : Nat} (h : n < 10) :
    natToDigits n = [Nat.digitChar n] := by
  rw [natToDigits_eq, if_pos h]

theorem natToDigits_len2 {n : Nat} (h1 : 10 ≤ n) (h2 : n < 100) :
    natToDigits n = [Nat.digitChar (n / 10), Nat.digitChar (n % 10)] := by
  rw [natToDigits_eq, if_neg (by omega), natToDigits_lt10 (by omega)]
  rfl

theorem natToDigits_len3 {n : Nat} (h1 : 100 ≤ n) (h2 : n < 1000) :
    natToDigits n =
      [Nat.digitChar (n / 100), Nat.digitChar (n / 10 % 10), Nat.digitChar (n % 10)] := by
  rw [natToDigits_eq, if_neg (by omega), natToDigits_len2 (by omega) (by omega),
    show n / 10 / 10 = n / 100 by omega]
  rfl

theorem natToDigits_len4 {n : Nat} (h1 : 1000 ≤ n) (h2 : n < 10000) :
    natToDigits n =
      [Nat.digitChar (n / 1000), Nat.digitChar (n / 100 % 10),
       Nat.digitChar (n / 10 % 10), Nat.digitChar (n % 10)] := by
  rw [natToDigits_eq, if_neg (by omega), natToDigits_len3 (by omega) (by omega),
    show n / 10 / 100 = n / 1000 by omega, show n / 10 / 10 % 10 = n / 100 % 10 by omega]
  rfl

/-- Zero-padding a number below 10000 to width 4 yields exactly its four
    decimal digit characters. -/
theorem pad4_digits {n : Nat} (h : n < 10000) :
    List.replicate (4 - (natToDigits n).length) '0' ++ natToDigits n =
      [Nat.digitChar (n / 1000), Nat.digitChar (n / 100 % 10),
       Nat.digitChar (n / 10 % 10), Nat.digitChar (n % 10)] := by
  by_cases h1 : n < 10
  · rw [natToDigits_lt10 h1, show n / 1000 = 0 by omega, show n / 100 % 10 = 0 by omega,
      show n / 10 % 10 = 0 by omega, show n % 10 = n by omega]
    rfl
  · by_cases h2 : n < 100
    · rw [natToDigits_len2 (by omega) h2, show n / 1000 = 0 by omega,
        show n / 100 % 10 = 0 by omega, show n / 10 % 10 = n / 10 by omega]
      rfl
    · by_cases h3 : n < 1000
      · rw [natToDigits_len3 (by omega) h3, show n / 1000 = 0 by omega,
          show n / 100 % 10 = n / 100 by omega]
        rfl
      · rw [natToDigits_len4 (by omega) h]
        rfl

/-- A shared prefix never decides the lexicographic comparison. -/
theorem lexLtChars_append_left (pre x y : List Char) :
    lexLtChars (pre ++ x) (pre ++ y) = lexLtChars x y := by
  induction pre with
  | nil => rfl
  | cons a pre ih =>
    simp only [List.cons_append, lexLtChars, if_neg (lt_irrefl a)]
    exact ih

/-- Comparing two width-4 digit-character strings lexicographically is
    comparing the numbers they denote. -/
theorem lexLt_digits4 {a3 a2 a1 a0 b3 b2 b1 b0 : Nat}
    (ha3 : a3 < 10) (ha2 : a2 < 10) (ha1 : a1 < 10) (ha0 : a0 < 10)
    (hb3 : b3 < 10) (hb2 : b2 < 10) (hb1 : b1 < 10) (hb0 : b0 < 10) :
    (lexLtChars
        [Nat.digitChar a3, Nat.digitChar a2, Nat.digitChar a1, Nat.digitChar a0]
        [Nat.digitChar b3, Nat.digitChar b2, Nat.digitChar b1, Nat.digitChar b0] = true) ↔
      1000 * a3 + 100 * a2 + 10 * a1 + a0 < 1000 * b3 + 100 * b2 + 10 * b1 + b0 := by
  have key : ∀ a < 10, ∀ b < 10, (Nat.digitChar a < Nat.digitChar b ↔ a < b) := by decide
  rcases Nat.lt_trichotomy a3 b3 with h3 | h3 | h3
  · rw [lexLtChars, if_pos ((key a3 ha3 b3 hb3).mpr h3)]
    simp only [true_iff]
    omega
  · subst h3
    rw [lexLtChars, if_neg (lt_irrefl _), if_neg (lt_irrefl _)]
    rcases Nat.lt_trichotomy a2 b2 with h2 | h2 | h2
    · rw [lexLtChars, if_pos ((key a2 ha2 b2 hb2).mpr h2)]
      simp only [true_iff]
      omega
    · subst h2
      rw [lexLtChars, if_neg (lt_irrefl _), if_neg (lt_irrefl _)]
      rcases Nat.lt_trichotomy a1 b1 with h1 | h1 | h1
      · rw [lexLtChars, if_pos ((key a1 ha1 b1 hb1).mpr h1)]
        simp only [true_iff]
        omega
      · subst h1
        rw [lexLtChars, if_neg (lt_irrefl _), if_neg (lt_irrefl _)]
        rcases Nat.lt_trichotomy a0 b0 with h0 | h0 | h0
        · rw [lexLtChars, if_pos ((key a0 ha0 b0 hb0).mpr h0)]
          simp only [true_iff]
          omega
        · subst h0
          rw [lexLtChars, if_neg (lt_irrefl _), if_neg (lt_irrefl _)]
          simp only [lexLtChars, Bool.false_eq_true, false_iff]
          omega
        · rw [lexLtChars, if_neg ((key a0 ha0 b0 hb0).not.mpr (by omega)),
            if_pos ((key b0 hb0 a0 ha0).mpr h0)]
          simp only [Bool.false_eq_true, false_iff]
          omega
      · rw [lexLtChars, if_neg ((key a1 ha1 b1 hb1).not.mpr (by omega)),
          if_pos ((key b1 hb1 a1 ha1).mpr h1)]
        simp only [Bool.false_eq_true, false_iff]
        omega
    · rw [lexLtChars, if_neg ((key a2 ha2 b2 hb2).not.mpr (by omega)),
        if_pos ((key b2 hb2 a2 ha2).mpr h2)]
      simp only [Bool.false_eq_true, false_iff]
      omega
  · rw [lexLtChars, if_neg ((key a3 ha3 b3 hb3).not.mpr (by omega)),
      if_pos ((key b3 hb3 a3 ha3).mpr h3)]
    simp only [Bool.false_eq_true, false_iff]
    omega

/-! ## Claims -/

/-- C1: calling `add_song_to_user_collection` twice for the same
    (userId, songId) is not idempotent: the second call unconditionally
    overwrites the stored User-Song record with its own freshly built one,
    whose `play_count` is 0 and whose `added_at` is the second call's
    timestamp — the first call's record (and any play history in it) is
    discarded. -/
theorem c1_library_add_not_idempotent (s : Store) (user_id song_id : String)
    (data1 data2 : Item) (now1 now2 : String) :
    let r2 := add_song_to_user_collection
      (add_song_to_user_collection s user_id song_id data1 now1).1
      user_id song_id data2 now2
    getEntry r2.1 ("USER#" ++ user_id, "SONG#" ++ song_id) = some r2.2 ∧
    dget r2.2 "play_count" = some (.vInt 0) ∧
    dget r2.2 "added_at" = some (.vStr now2) := by
  refine ⟨?_, rfl, rfl⟩
  exact getEntry_putAt_self _ _ _

/-- C4 counterexample: `create_user` does not fail with `Conflict` when the
    id already has a metadata record, and it does not leave the existing
    record unchanged: a second `create_user` for id "u1" replaces the
    stored metadata record with the new (different) one. -/
theorem c4_counterexample :
    getEntry (create_user (create_user [] "u1" "a@x" "alice" "t1").1
        "u1" "b@x" "bob" "t2").1 ("USER#u1", "METADATA") =
      some (create_user (create_user [] "u1" "a@x" "alice" "t1").1
        "u1" "b@x" "bob" "t2").2 ∧
    (create_user (create_user [] "u1" "a@x" "alice" "t1").1
        "u1" "b@x" "bob" "t2").2 ≠ (create_user [] "u1" "a@x" "alice" "t1").2 := by
  decide

/-- C4 (amended): `create_user` never fails: its unconditional `put_item`
    stores the newly built metadata record at (USER#id, METADATA),
    overwriting whatever record was there (last-writer-wins). -/
theorem c4_amended (s : Store) (user_id email username now : String) :
    getEntry (create_user s user_id email username now).1
        ("USER#" ++ user_id, "METADATA") =
      some (create_user s user_id email username now).2 := by
  exact getEntry_putAt_self _ _ _

/-- C7 counterexample: two `add_song_to_playlist` calls with the same
    position 1 but different song ids "a" and "b" leave BOTH membership
    rows in the store (the sort key embeds the song id before the
    position), refuting "only the second membership is stored at that
    position". -/
theorem c7_counterexample :
    getEntry (add_song_to_playlist (add_song_to_playlist [] "p" "a" 1 "t1").1
        "p" "b" 1 "t2").1 ("PLAYLIST#p", "SONG#a#0001") =
      some (add_song_to_playlist [] "p" "a" 1 "t1").2 ∧
    getEntry (add_song_to_playlist (add_song_to_playlist [] "p" "a" 1 "t1").1
        "p" "b" 1 "t2").1 ("PLAYLIST#p", "SONG#b#0001") =
      some (add_song_to_playlist (add_song_to_playlist [] "p" "a" 1 "t1").1
        "p" "b" 1 "t2").2 := by
  decide

/-- C7 (amended): overwriting happens only when the song id and the
    position both coincide: then the second membership row replaces the
    first at the same (PLAYLIST#pid, SONG#sid#pos) key, silently
    (last-writer-wins). -/
theorem c7_amended (s : Store) (playlist_id song_id : String) (position : Int)
    (now1 now2 : String) :
    getEntry (add_song_to_playlist
        (add_song_to_playlist s playlist_id song_id position now1).1
        playlist_id song_id position now2).1
        ("PLAYLIST#" ++ playlist_id, playlistSongSK song_id position) =
      some (add_song_to_playlist
        (add_song_to_playlist s playlist_id song_id position now1).1
        playlist_id song_id position now2).2 := by
  exact getEntry_putAt_self _ _ _

/-- C3 counterexample: `update_user_song` on an empty store (no User-Song
    record at the key) does not fail with NotFound: DynamoDB's `update_item`
    upserts, creating a record at (USER#u1, SONG#s1) holding the key
    attributes and the applied update. -/
theorem c3_counterexample :
    update_user_song [] "u1" "s1" [("rating", Value.vInt 4)] =
      .ok ([(("USER#u1", "SONG#s1"),
             [("PK", Value.vStr "USER#u1"), ("SK", Value.vStr "SONG#s1"),
              ("rating", Value.vInt 4)])],
           [("PK", Value.vStr "USER#u1"), ("SK", Value.vStr "SONG#s1"),
            ("rating", Value.vInt 4)]) := by
  rfl

/-- C3 (amended): when no User-Song record exists at the key and at least
    one update survives the `None` filter, `update_user_song` succeeds and
    creates a record at the key consisting of the key attributes followed
    by the applied updates (upsert), rather than failing with NotFound. -/
theorem c3_amended (s : Store) (user_id song_id : String) (updates : Item)
    (habs : getEntry s ("USER#" ++ user_id, "SONG#" ++ song_id) = none)
    (hne : applyUpdates updates ≠ []) :
    update_user_song s user_id song_id updates =
      .ok (putAt s ("USER#" ++ user_id, "SONG#" ++ song_id)
             ([("PK", .vStr ("USER#" ++ user_id)), ("SK", .vStr ("SONG#" ++ song_id))]
               ++ applyUpdates updates),
           [("PK", .vStr ("USER#" ++ user_id)), ("SK", .vStr ("SONG#" ++ song_id))]
             ++ applyUpdates updates) := by
  have hempty : (applyUpdates updates).isEmpty = false := by
    cases h : applyUpdates updates with
    | nil => exact absurd h hne
    | cons a l => rfl
  simp only [update_user_song, hempty, Bool.false_eq_true, if_false,
    updateItemAt, habs, getEntry_putAt_self]

/-- C3 witness: the amended statement at a concrete input (the store is
    empty, one non-null update). -/
theorem c3_amended_witness :
    update_user_song [] "u1" "s1" [("notes", Value.vStr "n")] =
      .ok ([(("USER#u1", "SONG#s1"),
             [("PK", Value.vStr "USER#u1"), ("SK", Value.vStr "SONG#s1"),
              ("notes", Value.vStr "n")])],
           [("PK", Value.vStr "USER#u1"), ("SK", Value.vStr "SONG#s1"),
            ("notes", Value.vStr "n")]) :=
  c3_amended [] "u1" "s1" [("notes", Value.vStr "n")] rfl (by decide)

/-- C2 counterexample: memberships of different songs break the claimed
    order agreement.  With song "a" at position 2 and song "b" at
    position 1, the positions satisfy 1 < 2, yet the sort key of the
    position-2 membership sorts lexicographically strictly BEFORE the
    sort key of the position-1 membership (the song id precedes the
    position in the key). -/
theorem c2_counterexample :
    (1 : Int) < 2 ∧
    lexLtChars (playlistSongSK "a" 2).data (playlistSongSK "b" 1).data = true ∧
    lexLtChars (playlistSongSK "b" 1).data (playlistSongSK "a" 2).data = false := by
  decide

/-- C2 (amended): for two memberships of the SAME song id whose positions
    lie in the supported range [0, 9999], the lexicographic order of the
    sort keys written by `add_song_to_playlist` coincides with the numeric
    order of the positions (the fixed-width zero padding is
    order-preserving there). -/
theorem c2_amended (song_id : String) (p q : Int)
    (hp0 : 0 ≤ p) (hp1 : p ≤ 9999) (hq0 : 0 ≤ q) (hq1 : q ≤ 9999) :
    (lexLtChars (playlistSongSK song_id p).data (playlistSongSK song_id q).data = true)
      ↔ p < q := by
  have hdata : ∀ r : Int, 0 ≤ r →
      (playlistSongSK song_id r).data =
        ("SONG#" ++ song_id ++ "#").data ++
          (List.replicate (4 - (natToDigits r.toNat).length) '0'
            ++ natToDigits r.toNat) := by
    intro r hr
    rw [playlistSongSK, String.data_append, pad4, if_neg (by omega)]
  rw [hdata p hp0, hdata q hq0, lexLtChars_append_left,
    pad4_digits (show p.toNat < 10000 by omega),
    pad4_digits (show q.toNat < 10000 by omega)]
  refine (lexLt_digits4 (by omega) (by omega) (by omega) (by omega)
      (by omega) (by omega) (by omega) (by omega)).trans ?_
  constructor <;> intro h <;> omega

/-- C2 witness: the amended statement at song id "x", positions 1 and 2. -/
theorem c2_amended_witness :
    lexLtChars (playlistSongSK "x" 1).data (playlistSongSK "x" 2).data = true :=
  (c2_amended "x" 1 2 (by decide) (by decide) (by decide) (by decide)).mpr (by decide)


theorem posLe_total (a b : Item) : posLe a b = true ∨ posLe b a = true := by
  simp only [posLe, decide_eq_true_eq]
  omega

theorem posLe_trans (a b c : Item) (hab : posLe a b = true) (hbc : posLe b c = true) :
    posLe a c = true := by
  simp only [posLe, decide_eq_true_eq] at *
  omega

/-- C6: `get_playlist_songs` returns its result sorted ascending by the
    numeric `position` attribute (numeric comparison on the decoded
    integer); in particular, with songs added at positions 3, 1, 2 in that
    call order, the result's positions are 1, 2, 3, not insertion order. -/
theorem c6_playlist_songs_sorted_by_position :
    (∀ (s : Store) (playlist_id : String),
      (get_playlist_songs s playlist_id).Pairwise
        (fun a b => dgetInt a "position" ≤ dgetInt b "position")) ∧
    (get_playlist_songs c6demoStore "p").map (fun it => dgetInt it "position")
      = [1, 2, 3] := by
  constructor
  · intro s playlist_id
    have h : (get_playlist_songs s playlist_id).Pairwise
        (fun a b => posLe a b = true) := pairwise_sortWith posLe_total posLe_trans _
    exact h.imp (fun hab => by simpa [posLe] using hab)
  · decide


theorem song_pk_ne_playlist_pk (x y : String) : "SONG#" ++ x ≠ "PLAYLIST#" ++ y := by
  apply ne_of_head_ne
  show some 'S' ≠ some 'P'
  decide

theorem song_pk_ne_user_pk (x y : String) : "SONG#" ++ x ≠ "USER#" ++ y := by
  apply ne_of_head_ne
  show some 'S' ≠ some 'U'
  decide

/-- Deleting a playlist only touches its PLAYLIST# partition and the
    owner's USER# row, so canonical Song lookups are unchanged. -/
theorem get_song_delete_playlist (s : Store) (user_id playlist_id song_id : String) :
    get_song (delete_playlist s user_id playlist_id) song_id = get_song s song_id := by
  simp only [get_song, delete_playlist]
  rw [getEntry_deleteItem_ne _
    (fun h => song_pk_ne_user_pk song_id user_id (congrArg Prod.fst h))]
  exact getEntry_foldl_deleteItem_ne _ _ _ _
    (fun d _ h => song_pk_ne_playlist_pk song_id playlist_id (congrArg Prod.fst h)) s

/-- After the cascade, every surviving membership row of the playlist has
    an absent canonical Song, so the merge step drops them all. -/
theorem delete_playlist_filterMap_nil (s : Store) (user_id playlist_id : String)
    (hwf : WellFormedStore s) :
    (queryBeginsWith (delete_playlist s user_id playlist_id)
        ("PLAYLIST#" ++ playlist_id) "SONG#").filterMap
      (fun playlist_song =>
        match get_song (delete_playlist s user_id playlist_id)
            (dgetStr playlist_song "song_id") with
        | some song_details => some (mergeDicts song_details playlist_song)
        | none => none) = [] := by
  rw [List.filterMap_eq_nil_iff]
  intro it hit
  rcases List.mem_map.mp hit with ⟨e, he, rfl⟩
  have he2 := mem_sortWith.mp he
  rcases List.mem_filter.mp he2 with ⟨hes', hp⟩
  -- peel the two deletion layers off membership in the cascaded store
  have hs' : e ∈ delete_playlist s user_id playlist_id := hes'
  simp only [delete_playlist] at hs'
  rcases mem_deleteItem.mp hs' with ⟨hs1, _⟩
  rcases mem_foldl_deleteItem.mp hs1 with ⟨hes, hD⟩
  -- the row's song must be absent, else the cascade would have deleted it
  rcases hsd : get_song (delete_playlist s user_id playlist_id)
      (dgetStr e.2 "song_id") with _ | sd
  · rfl
  · exfalso
    rw [get_song_delete_playlist] at hsd
    -- the row is in the original query result
    have hrow : e.2 ∈ queryBeginsWith s ("PLAYLIST#" ++ playlist_id) "SONG#" :=
      List.mem_map.mpr ⟨e, mem_sortWith.mpr (List.mem_filter.mpr ⟨hes, hp⟩), rfl⟩
    -- hence its merged item is in get_playlist_songs s playlist_id
    have hmem : mergeDicts sd e.2 ∈ get_playlist_songs s playlist_id := by
      apply mem_sortWith.mpr
      refine List.mem_filterMap.mpr ⟨e.2, hrow, ?_⟩
      rw [hsd]
    -- its recorded SK is the row's own sort key
    have hske : dget e.2 "SK" = some (.vStr e.1.2) := (hwf e hes).2
    have hsk : dgetStr (mergeDicts sd e.2) "SK" = e.1.2 := by
      simp [dgetStr, dget_mergeDicts, hske]
    -- so the cascade deleted exactly this row's key: contradiction
    have hpk : e.1.1 = "PLAYLIST#" ++ playlist_id := by
      have := (List.mem_filter.mp he2).2
      simp only [Bool.and_eq_true, decide_eq_true_eq] at this
      exact this.1
    exact hD (mergeDicts sd e.2) hmem (by rw [hsk, ← hpk])

/-- C5: playlist deletion cascades: after `delete_playlist`, querying the
    playlist's songs returns the empty list and the Playlist row itself is
    gone. -/
theorem c5_delete_playlist_cascades (s : Store) (user_id playlist_id : String)
    (hwf : WellFormedStore s) :
    get_playlist_songs (delete_playlist s user_id playlist_id) playlist_id = [] ∧
    get_playlist (delete_playlist s user_id playlist_id) user_id playlist_id = none := by
  constructor
  · have heq : get_playlist_songs (delete_playlist s user_id playlist_id) playlist_id =
        sortWith posLe
          ((queryBeginsWith (delete_playlist s user_id playlist_id)
              ("PLAYLIST#" ++ playlist_id) "SONG#").filterMap
            (fun playlist_song =>
              match get_song (delete_playlist s user_id playlist_id)
                  (dgetStr playlist_song "song_id") with
              | some song_details => some (mergeDicts song_details playlist_song)
              | none => none)) := rfl
    rw [heq, delete_playlist_filterMap_nil s user_id playlist_id hwf]
    rfl
  · exact getEntry_deleteItem_self _ _ _

/-- C5 witness: a concrete well-formed store (one song, its membership in
    playlist "p", and the playlist row) on which the deletion cascades. -/
theorem c5_witness :
    WellFormedStore
      (putAt (add_song_to_playlist
          (create_song [] "s1" [("artist", .vStr "A"), ("title", .vStr "T")]).1
          "p" "s1" 1 "t1").1
        ("USER#u", "PLAYLIST#p")
        [("PK", .vStr "USER#u"), ("SK", .vStr "PLAYLIST#p"),
         ("playlist_id", .vStr "p"), ("entity_type", .vStr "playlist")]) ∧
    (get_playlist_songs
        (delete_playlist
          (putAt (add_song_to_playlist
              (create_song [] "s1" [("artist", .vStr "A"), ("title", .vStr "T")]).1
              "p" "s1" 1 "t1").1
            ("USER#u", "PLAYLIST#p")
            [("PK", .vStr "USER#u"), ("SK", .vStr "PLAYLIST#p"),
             ("playlist_id", .vStr "p"), ("entity_type", .vStr "playlist")])
          "u" "p") "p" = [] ∧
      get_playlist
        (delete_playlist
          (putAt (add_song_to_playlist
              (create_song [] "s1" [("artist", .vStr "A"), ("title", .vStr "T")]).1
              "p" "s1" 1 "t1").1
            ("USER#u", "PLAYLIST#p")
            [("PK", .vStr "USER#u"), ("SK", .vStr "PLAYLIST#p"),
             ("playlist_id", .vStr "p"), ("entity_type", .vStr "playlist")])
          "u" "p") "u" "p" = none) :=
  ⟨by decide, c5_delete_playlist_cascades _ "u" "p" (by decide)⟩


/-- C8: an item is returned by `get_user_songs` exactly when it is the
    merge of a queried User-Song row with its existing canonical Song
    record; the merge is the field-wise union in which the User-Song
    fields take precedence on overlapping keys, and rows whose canonical
    Song lookup is absent contribute nothing (silently dropped, no
    error). -/
theorem c8_get_user_songs_merge (s : Store) (user_id : String) (it : Item) :
    it ∈ get_user_songs s user_id ↔
      ∃ us sd, us ∈ queryBeginsWith s ("USER#" ++ user_id) "SONG#" ∧
        get_song s (dgetStr us "song_id") = some sd ∧
        it = mergeDicts sd us ∧
        ∀ k, dget it k = (dget us k).or (dget sd k) := by
  constructor
  · intro h
    rcases List.mem_filterMap.mp h with ⟨us, hus, hf⟩
    rcases hsd : get_song s (dgetStr us "song_id") with _ | sd
    · rw [hsd] at hf
      cases hf
    · rw [hsd] at hf
      obtain rfl : mergeDicts sd us = it := by simpa using hf
      exact ⟨us, sd, hus, hsd, rfl, fun k => dget_mergeDicts sd us k⟩
  · rintro ⟨us, sd, hus, hsd, rfl, -⟩
    refine List.mem_filterMap.mpr ⟨us, hus, ?_⟩
    rw [hsd]

/-- C8 witness: on the concrete store, the merge of the canonical song
    with the User-Song row is returned by `get_user_songs`. -/
theorem c8_witness :
    mergeDicts (create_song [] "s1" [("artist", .vStr "A"), ("title", .vStr "T")]).2
        (add_song_to_user_collection [] "u" "s1"
          [("artist", .vStr "A"), ("title", .vStr "T")] "t0").2
      ∈ get_user_songs c8demoStore "u" :=
  (c8_get_user_songs_merge c8demoStore "u" _).mpr
    ⟨(add_song_to_user_collection [] "u" "s1"
        [("artist", .vStr "A"), ("title", .vStr "T")] "t0").2,
     (create_song [] "s1" [("artist", .vStr "A"), ("title", .vStr "T")]).2,
     by decide, by decide, rfl, fun k => dget_mergeDicts _ _ k⟩

/-- The User-Song item built by `add_song_to_user_collection` always has a
    `rating` attribute, holding `song_data.get('rating')`. -/
theorem dget_add_song_rating (s : Store) (user_id song_id : String)
    (song_data : Item) (now : String) :
    dget (add_song_to_user_collection s user_id song_id song_data now).2 "rating" =
      some (pyGet song_data "rating") := rfl

/-- The `song_data` dict built by the `POST /songs` handler maps "rating"
    to the request's rating exactly when one was provided. -/
theorem song_data_rating (r : CreateSongRequest) :
    dget (optField "title" (some (.vStr r.title)) ++
      optField "artist" (some (.vStr r.artist)) ++
      optField "album" (r.album.map .vStr) ++
      optField "year" (r.year.map .vInt) ++
      optField "genre" (r.genre.map .vStr) ++
      optField "duration" (r.duration.map .vInt) ++
      optField "cover_art_url" (r.cover_art_url.map .vStr) ++
      optField "rating" (r.rating.map .vInt) ++
      optField "notes" (r.notes.map .vStr)) "rating" = r.rating.map .vInt := by
  simp only [dget_append, dget_optField_self,
    dget_optField_ne (show ("title" : String) ≠ "rating" by decide),
    dget_optField_ne (show ("artist" : String) ≠ "rating" by decide),
    dget_optField_ne (show ("album" : String) ≠ "rating" by decide),
    dget_optField_ne (show ("year" : String) ≠ "rating" by decide),
    dget_optField_ne (show ("genre" : String) ≠ "rating" by decide),
    dget_optField_ne (show ("duration" : String) ≠ "rating" by decide),
    dget_optField_ne (show ("cover_art_url" : String) ≠ "rating" by decide),
    dget_optField_ne (show ("notes" : String) ≠ "rating" by decide),
    Option.none_or, Option.or_none]

/-- C9 counterexample: a valid request without a rating still produces a
    User-Song record whose `rating` key is PRESENT, holding a null value
    (Python stores `song_data.get('rating') = None` as a NULL attribute),
    refuting "omitted otherwise / no rating key with a null value". -/
theorem c9_counterexample :
    (SongsAPI.create_song []
        ⟨"T", "A", none, none, none, none, none, none, none⟩ "s1" "t0").toOption.map
      (fun x => dget x.2 "rating") = some (some Value.vNull) := by
  decide

/-- C9 (amended): on the library-add path, the User-Song record always has
    a `rating` key: a validated provided rating is stored as that integer
    (necessarily in [1,5]); an absent rating is stored as a null value,
    not omitted. -/
theorem c9_amended (s : Store) (r : CreateSongRequest) (song_id now : String)
    (hv : ratingOk r.rating) :
    ∃ s' it, SongsAPI.create_song s r song_id now = .ok (s', it) ∧
      (r.rating = none → dget it "rating" = some .vNull) ∧
      (∀ n, r.rating = some n →
        dget it "rating" = some (.vInt n) ∧ 1 ≤ n ∧ n ≤ 5) := by
  refine ⟨_, _, rfl, ?_, ?_⟩
  · intro h
    show some ((dget _ "rating").getD Value.vNull) = some Value.vNull
    rw [song_data_rating, h]
    rfl
  · intro n hn
    rw [hn] at hv
    simp only [ratingOk] at hv
    refine ⟨?_, hv.1, hv.2⟩
    show some ((dget _ "rating").getD Value.vNull) = some (Value.vInt n)
    rw [song_data_rating, hn]
    rfl

/-- C9 witness: the amended statement at a concrete request carrying
    rating 3. -/
theorem c9_amended_witness :
    ratingOk (CreateSongRequest.rating
        ⟨"T", "A", none, none, none, none, none, some 3, none⟩) ∧
    (∃ s' it,
      SongsAPI.create_song []
          ⟨"T", "A", none, none, none, none, none, some 3, none⟩ "s1" "t0" =
        .ok (s', it) ∧
      ((CreateSongRequest.rating
          ⟨"T", "A", none, none, none, none, none, some 3, none⟩) = none →
        dget it "rating" = some .vNull) ∧
      (∀ n, (CreateSongRequest.rating
          ⟨"T", "A", none, none, none, none, none, some 3, none⟩) = some n →
        dget it "rating" = some (.vInt n) ∧ 1 ≤ n ∧ n ≤ 5)) :=
  ⟨by decide,
   c9_amended [] ⟨"T", "A", none, none, none, none, none, some 3, none⟩ "s1" "t0"
     (by decide)⟩

/-- Whatever a handler body does, the catch-all wrapper only ever emits
    500 errors. -/
theorem handlerWrap_error_status {α : Type} (b : Except PyExn α)
    (e : HTTPException) (h : handlerWrap b = .error e) : e.status = 500 := by
  cases b with
  | ok a => simp [handlerWrap] at h
  | error ex =>
    simp only [handlerWrap] at h
    injection h with h1
    rw [← h1]

/-- C10: in the playlist routes, exceptions raised inside the handler body
    — including the 404 "Playlist not found" of `GET /playlists/{id}` and
    `POST /playlists/{id}/songs` and the 400 "No updates provided" of
    `PUT /playlists/{id}` — are caught by the catch-all and re-raised as a
    generic 500 (`str(e)` becomes the detail); every error these routes
    return has status 500, never 404 or 400. -/
theorem c10_playlist_routes_only_500 :
    (∀ (s : Store) (playlist_id : String),
      MusicLib.get_playlist s mock_user_id playlist_id = none →
        PlaylistsAPI.get_playlist s playlist_id =
          .error ⟨500, "404: Playlist not found"⟩) ∧
    (∀ (s : Store) (playlist_id : String) (r : UpdatePlaylistRequest),
      r.name = none → r.description = none → r.is_public = none →
        PlaylistsAPI.update_playlist s playlist_id r =
          .error ⟨500, "400: No updates provided"⟩) ∧
    (∀ (s : Store) (playlist_id : String) (r : AddSongToPlaylistRequest)
        (now : String),
      MusicLib.get_playlist s mock_user_id playlist_id = none →
        PlaylistsAPI.add_song_to_playlist s playlist_id r now =
          .error ⟨500, "404: Playlist not found"⟩) ∧
    (∀ (s : Store) (playlist_id : String) (e : HTTPException),
      PlaylistsAPI.get_playlist s playlist_id = .error e → e.status = 500) ∧
    (∀ (s : Store) (playlist_id : String) (r : UpdatePlaylistRequest)
        (e : HTTPException),
      PlaylistsAPI.update_playlist s playlist_id r = .error e →
        e.status = 500) ∧
    (∀ (s : Store) (playlist_id : String) (r : AddSongToPlaylistRequest)
        (now : String) (e : HTTPException),
      PlaylistsAPI.add_song_to_playlist s playlist_id r now = .error e →
        e.status = 500) := by
  refine ⟨?_, ?_, ?_, ?_, ?_, ?_⟩
  · intro s playlist_id h
    simp only [PlaylistsAPI.get_playlist, h]
    rfl
  · intro s playlist_id r h1 h2 h3
    simp only [PlaylistsAPI.update_playlist, h1, h2, h3, Option.map_none', optField]
    rfl
  · intro s playlist_id r now h
    simp only [PlaylistsAPI.add_song_to_playlist, h]
    rfl
  · intro s playlist_id e h
    exact handlerWrap_error_status _ e h
  · intro s playlist_id r e h
    exact handlerWrap_error_status _ e h
  · intro s playlist_id r now e h
    exact handlerWrap_error_status _ e h

/-- C10 witness: on the empty store the three routes each return a 500
    carrying the stringified inner exception, not a 404/400. -/
theorem c10_witness :
    PlaylistsAPI.get_playlist [] "p" = .error ⟨500, "404: Playlist not found"⟩ ∧
    PlaylistsAPI.update_playlist [] "p" ⟨none, none, none⟩ =
      .error ⟨500, "400: No updates provided"⟩ ∧
    PlaylistsAPI.add_song_to_playlist [] "p" ⟨"s1", none⟩ "t0" =
      .error ⟨500, "404: Playlist not found"⟩ :=
  ⟨c10_playlist_routes_only_500.1 [] "p" rfl,
   c10_playlist_routes_only_500.2.1 [] "p" ⟨none, none, none⟩ rfl rfl rfl,
   c10_playlist_routes_only_500.2.2.1 [] "p" ⟨"s1", none⟩ "t0" rfl⟩

end MusicLib
